import Mathlib

set_option linter.unusedVariables false

/-!
Shallow embedding of the event pipeline of `src/bot.py` (stock-news-bot):
ingestion, dedup, validation-caching, classification post-processing,
retention sweep, digest selection, delivery commit logic, persisted state,
and the 7 AM daily-brief trigger of the driver loop.

External I/O (feed fetch, article fetch, the OpenAI call, yfinance, the
Telegram transport) is modelled by explicit oracle parameters; everything
the Python functions themselves compute is translated directly.
-/

/-- Projection of a Python `datetime` value: exactly the fields the bot
reads. `absMinutes` is absolute time in minutes, used for the arithmetic
with `timedelta(minutes=...)` / `timedelta(hours=...)`; `hour`, `minute`,
`weekday` and `date` are the corresponding calendar projections of the
same instant. -/
structure PyDateTime where
  absMinutes : Int
  hour : Nat
  minute : Nat
  weekday : Nat
  date : Int
deriving DecidableEq, Repr

/-! Configuration constants of bot.py (lines 48-59). -/

def EVENT_RETENTION_MINUTES : Int := 5

def MAX_EVENTS_PER_SCAN : Nat := 20

def MAX_EVENTS_TO_STORE : Nat := 100

def SLEEP_MODE_ENABLED : Bool := true

def SLEEP_START_HOUR : Nat := 21

def SLEEP_END_HOUR : Nat := 7

def SLEEP_WEEKENDS : Bool := true

/-- The `NewsEvent` dataclass (bot.py lines 87-99).  `confidence_score`
(a Python float in `[0,1]`) is modelled by `Rat`; `timestamp` by absolute
minutes (`Int`), matching `PyDateTime.absMinutes`. -/
structure NewsEvent where
  headline : String
  ticker : String
  article_content : String
  importance_reasons : List String
  sentiment : String
  confidence_score : Rat
  timestamp : Int
  source_url : String
  source_feed : String
deriving DecidableEq, Repr

/-- Python `str.strip()`: drop whitespace from both ends (character-level
model, so the kernel can evaluate it). -/
def pyStrip (s : String) : String :=
  ⟨((s.data.dropWhile Char.isWhitespace).reverse.dropWhile
      Char.isWhitespace).reverse⟩

/-- `clean_text` (bot.py line 219): `text.replace("\n", " ").strip()`.
The needle is the single character `\n`, so the replacement is a
character map. -/
def clean_text (text : String) : String :=
  pyStrip ⟨text.data.map fun c => if c = '\n' then ' ' else c⟩

/-- `is_sleep_time` (bot.py lines 223-243), as a pure predicate of the
clock fields it reads. -/
def is_sleep_time (now : PyDateTime) : Bool :=
  if !SLEEP_MODE_ENABLED then false
  else if SLEEP_WEEKENDS && decide (5 ≤ now.weekday) then true
  else if now.weekday < 5 then
    if SLEEP_START_HOUR ≤ SLEEP_END_HOUR then
      decide (SLEEP_START_HOUR ≤ now.hour) && decide (now.hour < SLEEP_END_HOUR)
    else
      decide (SLEEP_START_HOUR ≤ now.hour) || decide (now.hour < SLEEP_END_HOUR)
  else false

/-- `get_bot_mode` (bot.py line 245). -/
def get_bot_mode (now : PyDateTime) : String :=
  if is_sleep_time now then "SLEEP" else "NORMAL"

/-- One insertion step of the stable descending sort modelling Python's
`sorted(events, key=lambda x: x.confidence_score, reverse=True)`
(bot.py lines 822 and 860).  A new element goes in front of the first
element whose score it matches or exceeds; since the recursion inserts
elements back-to-front, elements with equal scores keep their original
relative order, exactly as Python's stable sort does. -/
def insertByConfDesc (x : NewsEvent) : List NewsEvent → List NewsEvent
  | [] => [x]
  | y :: ys =>
    if y.confidence_score ≤ x.confidence_score then x :: y :: ys
    else y :: insertByConfDesc x ys

/-- Python `sorted(·, key=lambda x: x.confidence_score, reverse=True)`. -/
def pySortByConfDesc : List NewsEvent → List NewsEvent
  | [] => []
  | x :: xs => insertByConfDesc x (pySortByConfDesc xs)

/-- The sentiment filter `e.sentiment in ("BULLISH", "BEARISH")` used by
both report builders (bot.py lines 813 and 852). -/
def isSignal (e : NewsEvent) : Bool :=
  e.sentiment == "BULLISH" || e.sentiment == "BEARISH"

/-- The eligibility filter of `send_trading_report` (bot.py lines 849-855):
bullish/bearish sentiment, validated ticker, headline not in the Sent
Ledger.  `validate` abstracts the (cached) `validate_ticker` lookup. -/
def eligibleEvents (validate : String → Bool) (sent : List String)
    (events : List NewsEvent) : List NewsEvent :=
  events.filter fun e =>
    isSignal e && validate e.ticker && !(decide (e.headline ∈ sent))

/-- Result of one `send_trading_report` invocation: the digest composed
into the message (empty when the function returned before composing one),
whether the Telegram send succeeded, and the Sent Ledger afterwards. -/
structure ReportResult where
  digest : List NewsEvent
  delivered : Bool
  sent_after : List String
deriving Repr

/-- `send_trading_report` (bot.py lines 843-882).  `sendOk` is the value
`send_telegram_message` would return for the composed message.  The
in-memory `sent_headlines_sent` set is modelled by a list read only
through membership. -/
def send_trading_report (validate : String → Bool) (sent : List String)
    (events : List NewsEvent) (sendOk : Bool) : ReportResult :=
  if events.isEmpty then ⟨[], false, sent⟩
  else
    let eligible := eligibleEvents validate sent events
    if eligible.isEmpty then ⟨[], false, sent⟩
    else
      let top_events := (pySortByConfDesc eligible).take 5
      if top_events.isEmpty then ⟨[], false, sent⟩
      else if sendOk then
        ⟨top_events, true, sent ++ top_events.map (·.headline)⟩
      else ⟨top_events, false, sent⟩

/-- The recency/sentiment/validity filter of `send_wake_up_report`
(bot.py line 813). -/
def recentWakeEvents (validate : String → Bool) (sinceTime : Int)
    (events : List NewsEvent) : List NewsEvent :=
  events.filter fun e =>
    decide (sinceTime ≤ e.timestamp) && isSignal e && validate e.ticker

/-- Result of one `send_wake_up_report` invocation: the digest composed
into the message, whether the send succeeded, and the persisted
`last_wake_up_time` afterwards. -/
structure WakeResult where
  digest : List NewsEvent
  delivered : Bool
  last_wake_after : Option Int
deriving Repr

/-- `send_wake_up_report` (bot.py lines 801-841).  Note the branch at
lines 814-819: when there are events but none of them is a recent
bullish/bearish one, the function commits `last_wake_up_time := now`
and calls `save_state()` without attempting any Telegram send. -/
def send_wake_up_report (validate : String → Bool) (now : PyDateTime)
    (last_wake : Option Int) (events : List NewsEvent) (sendOk : Bool) :
    WakeResult :=
  if events.isEmpty then ⟨[], false, last_wake⟩
  else
    let sinceTime := last_wake.getD (now.absMinutes - 12 * 60)
    let recent := recentWakeEvents validate sinceTime events
    if recent.isEmpty then ⟨[], false, some now.absMinutes⟩
    else
      let top_events := (pySortByConfDesc recent).take 5
      if sendOk then ⟨top_events, true, some now.absMinutes⟩
      else ⟨top_events, false, last_wake⟩

/-- `cleanup_old_events` (bot.py lines 759-777).  The sweep is skipped
while `is_sleep_time()` holds or before 7 AM; otherwise the deque pops
from the front while the oldest event is older than the cutoff. -/
def cleanup_old_events (now : PyDateTime) (events : List NewsEvent) :
    List NewsEvent :=
  if is_sleep_time now || decide (now.hour < 7) then events
  else
    let cutoff := now.absMinutes - EVENT_RETENTION_MINUTES
    events.dropWhile fun e => decide (e.timestamp < cutoff)

/-! ## Ticker validation (bot.py lines 457-482) -/

/-- The fields of the `yfinance` info dict that `validate_ticker` reads. -/
structure YfInfo where
  quoteType : Option String
  quote_type : Option String
  symbol : Option String
  shortName : Option String
  longName : Option String
deriving DecidableEq, Repr

/-- Python `a or b` on optional strings: `a` unless it is `None` or
empty. -/
def pyOrStr : Option String → Option String → Option String
  | some s, b => if s = "" then b else some s
  | none, b => b

/-- Python truthiness of an optional string (`bool(x)`). -/
def truthyStr : Option String → Bool
  | some s => !(s == "")
  | none => false

/-- `validate_ticker` (bot.py lines 457-482).  `lookupInfo` is the
outcome of the external `yf.Ticker(ticker).info` lookup: `.error` models
it raising any exception, `.ok info` a returned info dict (possibly with
all fields missing, covering `info or {}`).  The mutable
`valid_tickers_cache` dict is modelled by an association list threaded
through the call; the returned pair is (result, cache afterwards). -/
def validate_ticker (lookupInfo : Except Unit YfInfo)
    (cache : List (String × Bool)) (ticker : String) :
    Bool × List (String × Bool) :=
  if ticker = "" then (false, cache)
  else
    match cache.lookup ticker with
    | some b => (b, cache)
    | none =>
      match lookupInfo with
      | .error _ => (false, (ticker, false) :: cache)
      | .ok info =>
        let quote_type := pyOrStr info.quoteType info.quote_type
        let symbol := pyOrStr info.symbol (some ticker)
        let short_name := pyOrStr info.shortName info.longName
        let is_equity := quote_type == some "EQUITY"
        let is_valid := truthyStr symbol && truthyStr short_name && is_equity
        (is_valid, (ticker, is_valid) :: cache)

/-! ## Classifier response post-processing (bot.py lines 484-570) -/

/-- JSON values, as produced by `json.loads` for the fields of the
classifier reply. -/
inductive JValue where
  | jnull : JValue
  | jbool : Bool → JValue
  | jnum : Rat → JValue
  | jstr : String → JValue
  | jarr : List JValue → JValue
  | jobj : List (String × JValue) → JValue

/-- Python exceptions that can escape `analyze_news_with_chatgpt`
(its `except` clause catches only JSONDecodeError, ValueError and
KeyError). -/
inductive PyError where
  | attributeError
  | typeError
deriving DecidableEq, Repr

/-- Python `str(x)` on a JSON value (a best-effort textual model; the
theorems below use only that the result is a single string). -/
def pyStr : JValue → String
  | .jnull => "None"
  | .jbool true => "True"
  | .jbool false => "False"
  | .jnum q => toString q
  | .jstr s => s
  | .jarr _ => "[...]"
  | .jobj _ => "\x7b...\x7d"

def digitsToNat (ds : List Char) : Nat :=
  ds.foldl (fun n c => 10 * n + (c.toNat - '0'.toNat)) 0

def allDigits (ds : List Char) : Bool :=
  !ds.isEmpty && ds.all (·.isDigit)

/-- Python `float(s)` on plain decimal literals: optional sign, integer
part, optional fractional part, surrounding whitespace ignored.  `none`
models `float` raising ValueError.  (A simplification of CPython's full
float grammar, sufficient for classifier-confidence strings.) -/
def pyFloatOfString (s : String) : Option Rat :=
  let cs := s.trim.data
  let signed : Rat × List Char :=
    match cs with
    | '-' :: rest => (-1, rest)
    | '+' :: rest => (1, rest)
    | rest => (1, rest)
  let sign := signed.1
  let body := signed.2
  let parts := body.span (fun c => c != '.')
  let ip := parts.1
  match parts.2 with
  | [] => if allDigits ip then some (sign * digitsToNat ip) else none
  | _ :: fp =>
    if fp.any (fun c => c == '.') then none
    else if allDigits ip && allDigits fp then
      some (sign * ((digitsToNat ip : Rat) +
        (digitsToNat fp : Rat) / (10 ^ fp.length)))
    else if allDigits ip && fp.isEmpty then
      some (sign * digitsToNat ip)
    else if ip.isEmpty && allDigits fp then
      some (sign * ((digitsToNat fp : Rat) / (10 ^ fp.length)))
    else none

/-- Outcome of Python `float(v)` on a JSON value: `.ok` a number,
`.valueError` (caught by the surrounding `except`), or `.typeError`
(not caught — it escapes `analyze_news_with_chatgpt`). -/
inductive FloatResult where
  | ok : Rat → FloatResult
  | valueError : FloatResult
  | typeError : FloatResult
deriving DecidableEq, Repr

def pyFloat : JValue → FloatResult
  | .jnum q => .ok q
  | .jbool b => .ok (if b then 1 else 0)
  | .jstr s =>
    match pyFloatOfString s with
    | some q => .ok q
    | none => .valueError
  | _ => .typeError

/-- Python `s.upper()` (character-level model). -/
def pyToUpper (s : String) : String := ⟨s.data.map Char.toUpper⟩

/-- Python `v.upper()`: defined on strings, AttributeError otherwise. -/
def pyUpperJ : JValue → Except PyError String
  | .jstr s => .ok (pyToUpper s)
  | _ => .error .attributeError

/-- The dict read `result.get(k, d)`. -/
def jGetD (fields : List (String × JValue)) (k : String) (d : JValue) :
    JValue :=
  (fields.lookup k).getD d

/-- The value `analyze_news_with_chatgpt` builds: sentiment string,
confidence, and the `importance_reasons` list (whose elements Python
leaves as whatever the JSON contained). -/
structure GptAnalysis where
  sentiment : String
  confidence_score : Rat
  importance_reasons : List JValue

/-- Fallback returned when `call_chatgpt_api` yielded no response
(bot.py lines 528-533). -/
def fallbackNoResponse : GptAnalysis :=
  ⟨"NEUTRAL", 0, [.jstr "Unable to analyze"]⟩

/-- Fallback returned after a caught parse error (bot.py lines 566-570). -/
def fallbackAnalysisFailed : GptAnalysis :=
  ⟨"NEUTRAL", 0, [.jstr "Analysis failed"]⟩

/-- `analyze_news_with_chatgpt` (bot.py lines 484-570), from the point
where the raw model reply is in hand.  `response = none` models
`call_chatgpt_api` returning `None`; `some (.error ())` models the
braced-substring extraction or `json.loads` failing (JSONDecodeError,
caught); `some (.ok fields)` is the parsed JSON object (a string that
parses and starts with a brace is always an object).  A `.error` result
models an uncaught Python exception escaping the function:
AttributeError from `.upper()` on a non-string sentiment, or TypeError
from `float()` on a null/array/object confidence. -/
def analyze_news_with_chatgpt
    (response : Option (Except Unit (List (String × JValue)))) :
    Except PyError GptAnalysis :=
  match response with
  | none => .ok fallbackNoResponse
  | some (.error _) => .ok fallbackAnalysisFailed
  | some (.ok fields) =>
    match pyUpperJ (jGetD fields "sentiment" (.jstr "NEUTRAL")) with
    | .error e => .error e
    | .ok sRaw =>
      let sentiment :=
        if sRaw = "BULLISH" ∨ sRaw = "BEARISH" ∨ sRaw = "NEUTRAL" then sRaw
        else "NEUTRAL"
      match pyFloat (jGetD fields "confidence_score" (.jnum 0)) with
      | .typeError => .error .typeError
      | .valueError => .ok fallbackAnalysisFailed
      | .ok c =>
        let confidence := max 0 (min 1 c)
        let reasons :=
          match jGetD fields "importance_reasons"
              (.jarr [.jstr "Unable to analyze"]) with
          | .jarr xs => xs
          | other => [.jstr (pyStr other)]
        .ok ⟨sentiment, confidence, reasons⟩

/-! ## Feed scanning (bot.py lines 693-757) -/

/-- A parsed feed entry as `feedparser` hands it over: title and link. -/
structure FeedEntry where
  title : String
  link : String
deriving DecidableEq, Repr

/-- The classifier output as stored into a `NewsEvent` by the scan loop
(`analysis['sentiment']` etc., reasons taken as strings). -/
structure EventAnalysis where
  sentiment : String
  confidence_score : Rat
  importance_reasons : List String
deriving DecidableEq, Repr

/-- The external collaborators the scan loop calls per entry.
`extractTicker` stands for `extract_ticker_from_headline`, `validate`
for the cached `validate_ticker`, `fetchContent` for
`fetch_article_content` (`none` = fetch failed), and `analyze` for
`analyze_news_with_chatgpt` (`.error` models an uncaught exception
escaping it, which the per-feed `except` then catches). -/
structure ScanOracles where
  extractTicker : String → Option String
  validate : String → Bool
  fetchContent : String → Option String
  analyze : String → String → String → Except Unit EventAnalysis

/-- The inner per-entry loop of `scan_news_feeds` (bot.py lines 702-751)
over one feed's entries.  Returns the events appended to `new_events`
and the `processed_articles` set afterwards (modelled as a list read
through membership).  An `.error` from `analyze` aborts the remaining
entries of this feed (the surrounding `except` at line 753), keeping
events and dedup entries accumulated so far. -/
def scanEntries (o : ScanOracles) (now : Int) (feedUrl : String) :
    List FeedEntry → List (String × String) →
    List NewsEvent × List (String × String)
  | [], processed => ([], processed)
  | entry :: rest, processed =>
    let headline := clean_text entry.title
    let link := entry.link
    if headline = "" ∨ link = "" then
      scanEntries o now feedUrl rest processed
    else if (headline, link) ∈ processed then
      scanEntries o now feedUrl rest processed
    else
      match o.extractTicker headline with
      | none => scanEntries o now feedUrl rest processed
      | some ticker =>
        if !o.validate ticker then scanEntries o now feedUrl rest processed
        else
          let article_content := (o.fetchContent link).getD headline
          match o.analyze headline ticker article_content with
          | .error _ => ([], processed)
          | .ok a =>
            let event : NewsEvent :=
              { headline := headline, ticker := ticker
                article_content := article_content
                importance_reasons := a.importance_reasons
                sentiment := a.sentiment
                confidence_score := a.confidence_score
                timestamp := now, source_url := link
                source_feed := feedUrl }
            let res := scanEntries o now feedUrl rest
              ((headline, link) :: processed)
            (event :: res.1, res.2)

/-- `scan_news_feeds` (bot.py lines 693-757): each feed contributes its
first `MAX_EVENTS_PER_SCAN` entries; a feed-level exception only skips
the remainder of that feed. -/
def scan_news_feeds (o : ScanOracles) (now : Int)
    (feeds : List (String × List FeedEntry))
    (processed : List (String × String)) :
    List NewsEvent × List (String × String) :=
  match feeds with
  | [] => ([], processed)
  | (url, entries) :: rest =>
    let r1 := scanEntries o now url (entries.take MAX_EVENTS_PER_SCAN) processed
    let r2 := scan_news_feeds o now rest r1.2
    (r1.1 ++ r2.1, r2.2)

/-! ## Persistence (bot.py lines 129-215 and 912-915) -/

/-- The global mutable state of bot.py that the persistence helpers deal
with (lines 129-140). -/
structure BotState where
  news_events : List NewsEvent
  processed_articles : List (String × String)
  sent_headlines : List String
  last_wake_up_time : Option Int
deriving Repr

/-- The three durable files: `events.json`, `state.json`,
`sent_headlines.json`.  `none` means the file does not exist. -/
structure DiskState where
  events_json : Option (List NewsEvent)
  state_json : Option (Option Int)
  sent_headlines_json : Option (List String)
deriving Repr

/-- What `save_events_to_disk`, `save_state` and `save_sent_headlines`
together write (bot.py lines 160-215).  No function of bot.py writes
`processed_articles` to any file. -/
def saveAll (s : BotState) : DiskState :=
  ⟨some s.news_events, some s.last_wake_up_time, some s.sent_headlines⟩

def takeLast (n : Nat) (l : List α) : List α := l.drop (l.length - n)

/-- The startup sequence of `main_loop` (bot.py lines 912-915):
`load_state()`, `load_events_from_disk()` (which keeps the last
`MAX_EVENTS_TO_STORE` events), `load_sent_headlines()`.  The
`processed_articles` set (line 131) starts empty: no loader touches it. -/
def startupLoad (disk : DiskState) : BotState :=
  { news_events := takeLast MAX_EVENTS_TO_STORE (disk.events_json.getD [])
    processed_articles := []
    sent_headlines := disk.sent_headlines_json.getD []
    last_wake_up_time := disk.state_json.getD none }

/-! ## The daily 7 AM wake-up trigger (bot.py lines 910 and 957-962) -/

/-- One driver-loop tick of the 7 AM trigger: it fires iff the hour is 7,
the minute is 0 or 1, and the in-memory `last_wakeup_triggered_date`
differs from today's date; on firing the guard is set to today's date.
Returns (guard afterwards, fired?). -/
def wakeTriggerStep (guard : Option Int) (t : PyDateTime) :
    Option Int × Bool :=
  if t.hour = 7 ∧ (t.minute = 0 ∨ t.minute = 1) ∧ guard ≠ some t.date then
    (some t.date, true)
  else (guard, false)

/-- How many times the 7 AM trigger fires on calendar date `d` over a
sequence of driver-loop ticks, starting from guard value `guard`. -/
def firesOn (guard : Option Int) (ticks : List PyDateTime) (d : Int) : Nat :=
  match ticks with
  | [] => 0
  | t :: rest =>
    let s := wakeTriggerStep guard t
    (if s.2 && decide (t.date = d) then 1 else 0) + firesOn s.1 rest d

/-- Two consecutive process runs: `last_wakeup_triggered_date` is a local
variable of `main_loop` (bot.py line 910), re-created as `None` at each
process start, so each run begins with guard `none`. -/
def firesAcrossRestart (run1 run2 : List PyDateTime) (d : Int) : Nat :=
  firesOn none run1 d + firesOn none run2 d

/-! ## Lemmas about the stable descending sort -/

theorem insertByConfDesc_perm (x : NewsEvent) (l : List NewsEvent) :
    List.Perm (insertByConfDesc x l) (x :: l) := by
  induction l with
  | nil => exact List.Perm.refl _
  | cons y ys ih =>
    unfold insertByConfDesc
    split
    · exact List.Perm.refl _
    · exact (ih.cons y).trans (List.Perm.swap x y ys)

theorem pySortByConfDesc_perm (l : List NewsEvent) :
    List.Perm (pySortByConfDesc l) l := by
  induction l with
  | nil => exact List.Perm.refl _
  | cons x xs ih => exact (insertByConfDesc_perm x _).trans (ih.cons x)

theorem mem_pySortByConfDesc {e : NewsEvent} {l : List NewsEvent} :
    e ∈ pySortByConfDesc l ↔ e ∈ l :=
  (pySortByConfDesc_perm l).mem_iff

theorem insertByConfDesc_pairwise_ge (x : NewsEvent) (l : List NewsEvent)
    (h : l.Pairwise fun a b => b.confidence_score ≤ a.confidence_score) :
    (insertByConfDesc x l).Pairwise
      fun a b => b.confidence_score ≤ a.confidence_score := by
  induction l with
  | nil => simp [insertByConfDesc]
  | cons y ys ih =>
    rw [List.pairwise_cons] at h
    obtain ⟨hy, hys⟩ := h
    unfold insertByConfDesc
    split
    next hle =>
      refine List.pairwise_cons.mpr ⟨?_, List.pairwise_cons.mpr ⟨hy, hys⟩⟩
      intro z hz
      rcases List.mem_cons.mp hz with rfl | hz
      · exact hle
      · exact le_trans (hy z hz) hle
    next hgt =>
      refine List.pairwise_cons.mpr ⟨?_, ih hys⟩
      intro z hz
      have hz' := (insertByConfDesc_perm x ys).mem_iff.mp hz
      rcases List.mem_cons.mp hz' with rfl | hz2
      · exact le_of_not_le hgt
      · exact hy z hz2

theorem pySortByConfDesc_pairwise_ge (l : List NewsEvent) :
    (pySortByConfDesc l).Pairwise
      fun a b => b.confidence_score ≤ a.confidence_score := by
  induction l with
  | nil => simp [pySortByConfDesc]
  | cons x xs ih => exact insertByConfDesc_pairwise_ge x _ ih

/-- Stability of the sort, phrased on score ties: if the input preserves
the order `timestamp ≤` between equal-score elements, so does the
output (Python's sort is stable, so equal-score elements keep their
input order). -/
theorem insertByConfDesc_pairwise_tie (x : NewsEvent) (l : List NewsEvent)
    (hx : ∀ y ∈ l, x.confidence_score = y.confidence_score →
      x.timestamp ≤ y.timestamp)
    (h : l.Pairwise fun a b =>
      a.confidence_score = b.confidence_score → a.timestamp ≤ b.timestamp) :
    (insertByConfDesc x l).Pairwise fun a b =>
      a.confidence_score = b.confidence_score → a.timestamp ≤ b.timestamp := by
  induction l with
  | nil => simp [insertByConfDesc]
  | cons y ys ih =>
    rw [List.pairwise_cons] at h
    obtain ⟨hy, hys⟩ := h
    unfold insertByConfDesc
    split
    next hle =>
      refine List.pairwise_cons.mpr ⟨?_, List.pairwise_cons.mpr ⟨hy, hys⟩⟩
      intro z hz
      rcases List.mem_cons.mp hz with rfl | hz
      · exact hx z (List.mem_cons_self _ _)
      · exact hx z (List.mem_cons_of_mem y hz)
    next hgt =>
      refine List.pairwise_cons.mpr
        ⟨?_, ih (fun z hz => hx z (List.mem_cons_of_mem y hz)) hys⟩
      intro z hz
      have hz' := (insertByConfDesc_perm x ys).mem_iff.mp hz
      rcases List.mem_cons.mp hz' with rfl | hz2
      · intro heq; exact absurd (le_of_eq heq) hgt
      · exact hy z hz2

theorem pySortByConfDesc_pairwise_tie (l : List NewsEvent)
    (h : l.Pairwise fun a b =>
      a.confidence_score = b.confidence_score → a.timestamp ≤ b.timestamp) :
    (pySortByConfDesc l).Pairwise fun a b =>
      a.confidence_score = b.confidence_score → a.timestamp ≤ b.timestamp := by
  induction l with
  | nil => simp [pySortByConfDesc]
  | cons x xs ih =>
    rw [List.pairwise_cons] at h
    obtain ⟨hx, hxs⟩ := h
    exact insertByConfDesc_pairwise_tie x _
      (fun y hy => hx y (mem_pySortByConfDesc.mp hy)) (ih hxs)

/-! ## Characterizations of the two digest builders -/

/-- In every branch of `send_trading_report`, the digest equals the first
five elements of the score-sorted eligible list (in the early-return
branches both sides are `[]`). -/
theorem trading_digest_eq (validate : String → Bool) (sent : List String)
    (events : List NewsEvent) (sendOk : Bool) :
    (send_trading_report validate sent events sendOk).digest
      = (pySortByConfDesc (eligibleEvents validate sent events)).take 5 := by
  unfold send_trading_report
  split
  next h =>
    rw [List.isEmpty_iff.mp h]
    rfl
  next =>
    dsimp only
    split
    next h2 =>
      rw [List.isEmpty_iff.mp h2, pySortByConfDesc]
      rfl
    next =>
      split
      next h3 => exact (List.isEmpty_iff.mp h3).symm
      next => split <;> rfl

/-- In every branch of `send_wake_up_report`, the digest equals the first
five elements of the score-sorted recent list. -/
theorem wake_digest_eq (validate : String → Bool) (now : PyDateTime)
    (last_wake : Option Int) (events : List NewsEvent) (sendOk : Bool) :
    (send_wake_up_report validate now last_wake events sendOk).digest
      = (pySortByConfDesc (recentWakeEvents validate
          (last_wake.getD (now.absMinutes - 12 * 60)) events)).take 5 := by
  unfold send_wake_up_report
  split
  next h =>
    rw [List.isEmpty_iff.mp h]
    rfl
  next =>
    dsimp only
    split
    next h2 =>
      rw [List.isEmpty_iff.mp h2, pySortByConfDesc]
      rfl
    next => split <;> rfl

/-- Digest membership implies eligibility-filter membership. -/
theorem mem_trading_digest_eligible {validate : String → Bool}
    {sent : List String} {events : List NewsEvent} {sendOk : Bool}
    {e : NewsEvent}
    (he : e ∈ (send_trading_report validate sent events sendOk).digest) :
    e ∈ eligibleEvents validate sent events := by
  rw [trading_digest_eq] at he
  exact mem_pySortByConfDesc.mp (List.mem_of_mem_take he)

/-! ## C1: per-ticker cooldown at delivery time -/

/-- Sample store for C1: two bullish events about the same ticker under
different headlines. -/
def c1evA : NewsEvent :=
  ⟨"Apple beats on earnings", "AAPL", "c1", [], "BULLISH", mkRat 9 10, 0,
    "u1", "f"⟩

def c1evB : NewsEvent :=
  ⟨"Apple raises guidance", "AAPL", "c2", [], "BULLISH", mkRat 8 10, 1,
    "u2", "f"⟩

/-- C1 (counterexample): a single delivered trading report contains two
accepted alerts for the same ticker (under distinct headlines), i.e. two
alerts for one ticker delivered zero time apart — so no positive
`cooldownDuration` separation exists, and the code keeps no
`lastAlert[ticker]` state at all. -/
theorem c1_counterexample :
    (send_trading_report (fun _ => true) [] [c1evA, c1evB] true).delivered
        = true ∧
    (send_trading_report (fun _ => true) [] [c1evA, c1evB] true).digest
        = [c1evA, c1evB] ∧
    c1evA.ticker = c1evB.ticker ∧ c1evA.headline ≠ c1evB.headline := by
  exact ⟨by decide, by decide, by decide, by decide⟩

/-- C1 (amended): delivery-time gating in `send_trading_report` consists
exactly of the sentiment filter, ticker validation and the sent-headline
ledger; there is no per-ticker cooldown condition, so membership of an
event in the delivered digest never depends on when the ticker last
alerted. -/
theorem c1_trading_gate_no_cooldown (validate : String → Bool)
    (sent : List String) (events : List NewsEvent) (sendOk : Bool)
    (e : NewsEvent)
    (he : e ∈ (send_trading_report validate sent events sendOk).digest) :
    e ∈ events ∧ (e.sentiment = "BULLISH" ∨ e.sentiment = "BEARISH") ∧
    validate e.ticker = true ∧ e.headline ∉ sent := by
  have h := mem_trading_digest_eligible he
  rw [eligibleEvents, List.mem_filter] at h
  obtain ⟨hmem, hp⟩ := h
  simp only [isSignal, Bool.and_eq_true, Bool.or_eq_true, beq_iff_eq,
    Bool.not_eq_true', decide_eq_false_iff_not] at hp
  exact ⟨hmem, hp.1.1, hp.1.2, hp.2⟩

/-- C1 witness: the amended gate characterization at a concrete input. -/
theorem c1_trading_gate_no_cooldown_witness :
    c1evA ∈ [c1evA, c1evB] ∧
    (c1evA.sentiment = "BULLISH" ∨ c1evA.sentiment = "BEARISH") ∧
    (fun _ => true) c1evA.ticker = true ∧
    c1evA.headline ∉ ([] : List String) :=
  c1_trading_gate_no_cooldown (fun _ => true) [] [c1evA, c1evB] true c1evA
    (by decide)

/-! ## C4: digest selection order -/

/-- Sample store for C4: two eligible events with equal scores, the
second strictly more recent. -/
def c4evA : NewsEvent :=
  ⟨"older story", "AAA", "c", [], "BULLISH", mkRat 1 2, 0, "u1", "f"⟩

def c4evB : NewsEvent :=
  ⟨"newer story", "BBB", "c", [], "BEARISH", mkRat 1 2, 10, "u2", "f"⟩

/-- C4 (counterexample): with two eligible events of equal score, the
digest lists the OLDER event first — Python's stable sort keeps input
(chronological) order on ties, so recency does not win as the claim
states. -/
theorem c4_counterexample :
    (send_trading_report (fun _ => true) [] [c4evA, c4evB] true).digest
        = [c4evA, c4evB] ∧
    c4evA.confidence_score = c4evB.confidence_score ∧
    c4evA.timestamp < c4evB.timestamp := by
  exact ⟨by decide, by decide, by decide⟩

/-- C4 (amended): for a chronologically ordered store, the trading-report
digest is the top `min 5 |eligible|` eligible events in descending score
order, with score ties broken by store order — the OLDER (earlier
appended) event first; every eligible event left out scores no higher
than any digest member. -/
theorem c4_digest_top5_desc_stable (validate : String → Bool)
    (sent : List String) (events : List NewsEvent) (sendOk : Bool)
    (hchron : events.Pairwise fun a b => a.timestamp ≤ b.timestamp) :
    ((send_trading_report validate sent events sendOk).digest).length
        = min 5 (eligibleEvents validate sent events).length ∧
    ((send_trading_report validate sent events sendOk).digest).Pairwise
      (fun a b => b.confidence_score ≤ a.confidence_score ∧
        (a.confidence_score = b.confidence_score →
          a.timestamp ≤ b.timestamp)) ∧
    (∀ e ∈ eligibleEvents validate sent events,
      e ∉ (send_trading_report validate sent events sendOk).digest →
      ∀ f ∈ (send_trading_report validate sent events sendOk).digest,
        e.confidence_score ≤ f.confidence_score) ∧
    (∀ f ∈ (send_trading_report validate sent events sendOk).digest,
      f ∈ eligibleEvents validate sent events) := by
  rw [trading_digest_eq]
  have hfilt : (eligibleEvents validate sent events).Pairwise
      fun a b => a.timestamp ≤ b.timestamp := by
    rw [eligibleEvents]
    exact hchron.filter _
  have hperm := pySortByConfDesc_perm (eligibleEvents validate sent events)
  have hsorted := pySortByConfDesc_pairwise_ge
    (eligibleEvents validate sent events)
  have hQ : (eligibleEvents validate sent events).Pairwise
      fun a b => a.confidence_score = b.confidence_score →
        a.timestamp ≤ b.timestamp :=
    hfilt.imp (fun {a b} (h : a.timestamp ≤ b.timestamp)
      (_ : a.confidence_score = b.confidence_score) => h)
  have htie := pySortByConfDesc_pairwise_tie
    (eligibleEvents validate sent events) hQ
  refine ⟨?_, ?_, ?_, ?_⟩
  · rw [List.length_take, hperm.length_eq]
  · exact (hsorted.and htie).sublist (List.take_sublist 5 _)
  · intro e hemem hnot f hf
    have hesort : e ∈ pySortByConfDesc (eligibleEvents validate sent events) :=
      mem_pySortByConfDesc.mpr hemem
    have hesplit : e ∈ (pySortByConfDesc
          (eligibleEvents validate sent events)).take 5 ∨
        e ∈ (pySortByConfDesc (eligibleEvents validate sent events)).drop 5 := by
      rw [← List.mem_append, List.take_append_drop]
      exact hesort
    rcases hesplit with h1 | h2
    · exact absurd h1 hnot
    · have hsorted2 : ((pySortByConfDesc
            (eligibleEvents validate sent events)).take 5 ++
          (pySortByConfDesc (eligibleEvents validate sent events)).drop 5
            ).Pairwise
          (fun a b => b.confidence_score ≤ a.confidence_score) := by
        rw [List.take_append_drop]
        exact hsorted
      exact (List.pairwise_append.mp hsorted2).2.2 f hf e h2
  · intro f hf
    exact mem_pySortByConfDesc.mp (List.mem_of_mem_take hf)

/-- C4 witness: the amended digest characterization evaluated at a
concrete chronological store. -/
theorem c4_digest_top5_desc_stable_witness :
    ((send_trading_report (fun _ => true) [] [c4evA, c4evB] true).digest).length
        = min 5 (eligibleEvents (fun _ => true) [] [c4evA, c4evB]).length :=
  (c4_digest_top5_desc_stable (fun _ => true) [] [c4evA, c4evB] true
    (by decide)).1

/-! ## C2: state commits vs. delivery success -/

/-- Sample store for C2's counterexample: one NEUTRAL event, so the
wake-up report finds events but no recent bullish/bearish ones. -/
def c2evN : NewsEvent :=
  ⟨"quiet day", "AAA", "c", [], "NEUTRAL", mkRat 1 2, 500, "u", "f"⟩

def c2now : PyDateTime := ⟨1000, 8, 0, 1, 5⟩

/-- A bullish event for C2's witness. -/
def c2evB : NewsEvent :=
  ⟨"surge", "BBB", "c", [], "BULLISH", mkRat 3 4, 500, "u", "f"⟩

/-- C2 (counterexample): with the transport failing (`sendOk = false`,
so no delivery can succeed), `send_wake_up_report` on a store holding
only a NEUTRAL event still commits a new persisted `last_wake_up_time`
(bot.py lines 814-819) — a state commit without any delivery success. -/
theorem c2_counterexample :
    (send_wake_up_report (fun _ => true) c2now (some 0) [c2evN]
        false).delivered = false ∧
    (send_wake_up_report (fun _ => true) c2now (some 0) [c2evN]
        false).last_wake_after = some 1000 ∧
    some (1000 : Int) ≠ some (0 : Int) := by
  exact ⟨by decide, by decide, by decide⟩

/-- C2 (amended): when a Telegram send is attempted and fails, the Sent
Ledger and the persisted last-wake-up instant are unchanged (so the
content stays eligible for retry); additionally `send_wake_up_report`
commits a new last-wake-up instant without any delivery when the store
is non-empty but holds no eligible recent event. -/
theorem c2_commit_only_on_success_amended (validate : String → Bool)
    (sent : List String) (events : List NewsEvent) (now : PyDateTime)
    (last_wake : Option Int) :
    (send_trading_report validate sent events false).sent_after = sent ∧
    (send_trading_report validate sent events false).delivered = false ∧
    (recentWakeEvents validate (last_wake.getD (now.absMinutes - 12 * 60))
        events ≠ [] →
      (send_wake_up_report validate now last_wake events
        false).last_wake_after = last_wake) ∧
    (send_wake_up_report validate now last_wake events false).delivered
      = false := by
  refine ⟨?_, ?_, ?_, ?_⟩
  · unfold send_trading_report
    split
    · rfl
    · dsimp only
      split
      · rfl
      · split
        · rfl
        · rfl
  · unfold send_trading_report
    split
    · rfl
    · dsimp only
      split
      · rfl
      · split
        · rfl
        · rfl
  · intro hne
    unfold send_wake_up_report
    split
    · rfl
    · dsimp only
      split
      next h => exact absurd (List.isEmpty_iff.mp h) hne
      next => rfl
  · unfold send_wake_up_report
    split
    · rfl
    · dsimp only
      split
      · rfl
      · rfl

/-- C2 witness: the amended commit discipline at concrete inputs. -/
theorem c2_commit_only_on_success_amended_witness :
    (send_trading_report (fun _ => true) ["x"] [c2evB] false).sent_after
        = ["x"] ∧
    (send_wake_up_report (fun _ => true) c2now (some 0) [c2evB]
        false).last_wake_after = some 0 :=
  ⟨(c2_commit_only_on_success_amended (fun _ => true) ["x"] [c2evB] c2now
      (some 0)).1,
   (c2_commit_only_on_success_amended (fun _ => true) ["x"] [c2evB] c2now
      (some 0)).2.2.1 (by decide)⟩

/-! ## C3: Sent-Ledger exclusivity across both digests -/

/-- Sample event for C3: a bullish story whose headline will already be
in the Sent Ledger. -/
def c3ev : NewsEvent :=
  ⟨"h1", "CCC", "c", [], "BULLISH", mkRat 3 4, 500, "u", "f"⟩

def c3now : PyDateTime := ⟨1000, 8, 0, 1, 5⟩

/-- In every branch of a successful `send_trading_report`, the resulting
ledger is the old ledger plus the digest's headlines. -/
theorem trading_sent_after_success (validate : String → Bool)
    (sent : List String) (events : List NewsEvent) :
    (send_trading_report validate sent events true).sent_after
      = sent ++ ((send_trading_report validate sent events true).digest).map
          (·.headline) := by
  unfold send_trading_report
  split
  · simp
  · dsimp only
    split
    · simp
    · split
      · simp
      · rfl

/-- C3 (counterexample): after a successful trading report puts headline
`h1` into the Sent Ledger, a later wake-up report's delivered digest
still contains an event with that headline — `send_wake_up_report`
(bot.py line 813) never consults `sent_headlines_sent`. -/
theorem c3_counterexample :
    "h1" ∈ (send_trading_report (fun _ => true) [] [c3ev] true).sent_after ∧
    (send_wake_up_report (fun _ => true) c3now (some 0) [c3ev]
        true).delivered = true ∧
    c3ev ∈ (send_wake_up_report (fun _ => true) c3now (some 0) [c3ev]
        true).digest ∧
    c3ev.headline = "h1" := by
  exact ⟨by decide, by decide, by decide, rfl⟩

/-- C3 (amended): ledger exclusivity holds for the periodic trading
report only — its digest never contains a headline already in the Sent
Ledger, and after a successful delivery every reported headline is in
the ledger; the wake-up report neither excludes previously sent
headlines nor records its reported ones (its signature never touches
the ledger). -/
theorem c3_sent_ledger_trading_only (validate : String → Bool)
    (sent : List String) (events : List NewsEvent) (sendOk : Bool) :
    (∀ e ∈ (send_trading_report validate sent events sendOk).digest,
      e.headline ∉ sent) ∧
    (∀ e ∈ (send_trading_report validate sent events true).digest,
      e.headline ∈ (send_trading_report validate sent events
        true).sent_after) := by
  constructor
  · intro e he
    have h := mem_trading_digest_eligible he
    rw [eligibleEvents, List.mem_filter] at h
    simp only [isSignal, Bool.and_eq_true, Bool.or_eq_true, beq_iff_eq,
      Bool.not_eq_true', decide_eq_false_iff_not] at h
    exact h.2.2
  · intro e he
    rw [trading_sent_after_success]
    exact List.mem_append.mpr (Or.inr (List.mem_map.mpr ⟨e, he, rfl⟩))

/-- C3 witness: the amended ledger discipline at a concrete input. -/
theorem c3_sent_ledger_trading_only_witness :
    c3ev.headline ∉ ([] : List String) ∧
    c3ev.headline ∈ (send_trading_report (fun _ => true) [] [c3ev]
      true).sent_after :=
  ⟨(c3_sent_ledger_trading_only (fun _ => true) [] [c3ev] true).1 c3ev
      (by decide),
   (c3_sent_ledger_trading_only (fun _ => true) [] [c3ev] true).2 c3ev
      (by decide)⟩

/-! ## C5: the daily 7 AM trigger -/

theorem wakeTriggerStep_cases (g : Option Int) (t : PyDateTime) :
    wakeTriggerStep g t = (some t.date, true) ∨
    wakeTriggerStep g t = (g, false) := by
  unfold wakeTriggerStep
  split
  · exact Or.inl rfl
  · exact Or.inr rfl

/-- If no tick falls on date `d`, the trigger never fires for `d`,
whatever the guard. -/
theorem firesOn_zero_of_ne (ticks : List PyDateTime) (d : Int) :
    (∀ t ∈ ticks, t.date ≠ d) → ∀ g, firesOn g ticks d = 0 := by
  induction ticks with
  | nil => intro _ g; rfl
  | cons t rest ih =>
    intro h g
    have ht : decide (t.date = d) = false :=
      decide_eq_false (h t (List.mem_cons_self _ _))
    unfold firesOn
    dsimp only
    rw [ih (fun x hx => h x (List.mem_cons_of_mem _ hx)) _, ht]
    simp

/-- Once the guard holds date `d` and all remaining tick dates are ≥ `d`
and non-decreasing, the trigger never fires for `d` again. -/
theorem firesOn_some_zero (ticks : List PyDateTime) (d : Int)
    (hmono : ticks.Pairwise fun a b => a.date ≤ b.date) :
    (∀ t ∈ ticks, d ≤ t.date) → firesOn (some d) ticks d = 0 := by
  induction hmono with
  | nil => intro _; rfl
  | @cons t rest hhead htail ih =>
    intro hge
    by_cases hd : t.date = d
    · have hstep : wakeTriggerStep (some d) t = (some d, false) := by
        unfold wakeTriggerStep
        rw [if_neg]
        rintro ⟨_, _, hne⟩
        exact hne (by rw [hd])
      unfold firesOn
      dsimp only
      rw [hstep]
      simp only [Bool.false_and, if_neg Bool.false_ne_true, Nat.zero_add]
      exact ih (fun x hx => hge x (List.mem_cons_of_mem _ hx))
    · have hgt : d < t.date :=
        lt_of_le_of_ne (hge t (List.mem_cons_self _ _)) (fun h => hd h.symm)
      have hrest : ∀ x ∈ rest, x.date ≠ d := by
        intro x hx heq
        exact absurd (lt_of_lt_of_le hgt (hhead x hx)) (by rw [heq]; exact lt_irrefl d)
      have hdec : decide (t.date = d) = false := decide_eq_false hd
      unfold firesOn
      dsimp only
      rw [hdec, firesOn_zero_of_ne rest d hrest _]
      simp

/-- C5 (counterexample): with a restart between the 7:00 tick and the
7:01 tick of the same calendar day, the 7 AM trigger fires twice on that
day — the `last_wakeup_triggered_date` guard is an in-memory local of
`main_loop`, not persisted. -/
theorem c5_counterexample :
    firesAcrossRestart [⟨420, 7, 0, 4, 0⟩] [⟨421, 7, 1, 4, 0⟩] 0 = 2 ∧
    ¬(firesAcrossRestart [⟨420, 7, 0, 4, 0⟩] [⟨421, 7, 1, 4, 0⟩] 0 ≤ 1) := by
  exact ⟨by decide, by decide⟩

/-- C5 (amended): within a single process run (guard starting at `None`)
and over any date-monotone sequence of driver-loop ticks, the 7 AM
trigger fires at most once per calendar day; the guard is not persisted,
so the guarantee does not extend across a restart. -/
theorem c5_daily_trigger_once_per_run (ticks : List PyDateTime)
    (hmono : ticks.Pairwise fun a b => a.date ≤ b.date) (d : Int) :
    firesOn none ticks d ≤ 1 := by
  suffices h : ∀ g, firesOn g ticks d ≤ 1 from h none
  induction hmono with
  | nil => intro g; exact Nat.zero_le 1
  | @cons t rest hhead htail ih =>
    intro g
    rcases wakeTriggerStep_cases g t with hstep | hstep
    · by_cases hd : t.date = d
      · have hdec : decide (t.date = d) = true := decide_eq_true hd
        unfold firesOn
        dsimp only
        rw [hstep, hdec]
        simp only [Bool.and_self, if_pos rfl]
        have hz : firesOn (some t.date) rest d = 0 := by
          rw [hd]
          exact firesOn_some_zero rest d htail
            (fun x hx => hd ▸ hhead x hx)
        rw [hz]
        simp
      · have hdec : decide (t.date = d) = false := decide_eq_false hd
        unfold firesOn
        dsimp only
        rw [hstep, hdec]
        simp only [Bool.and_false, if_neg Bool.false_ne_true, Nat.zero_add]
        exact ih _
    · unfold firesOn
      dsimp only
      rw [hstep]
      simp only [Bool.false_and, if_neg Bool.false_ne_true, Nat.zero_add]
      exact ih _

/-- C5 witness: the per-run guarantee at a concrete tick sequence. -/
theorem c5_daily_trigger_once_per_run_witness :
    firesOn none [⟨420, 7, 0, 4, 0⟩, ⟨421, 7, 1, 4, 0⟩] 0 ≤ 1 :=
  c5_daily_trigger_once_per_run _ (by decide) 0

/-! ## C6: persistence of the Dedup Ledger -/

/-- A pre-restart state whose Dedup Ledger holds one article identity. -/
def c6state : BotState := ⟨[], [("h1", "l1")], [], none⟩

/-- Oracles for C6's re-ingestion check. -/
def c6oracles : ScanOracles :=
  ⟨fun _ => some "AAA", fun _ => true, fun _ => none,
    fun _ _ _ => .ok ⟨"NEUTRAL", 0, ["Analysis failed"]⟩⟩

/-- C6 (counterexample): an article identity present in the Dedup Ledger
before shutdown is gone after save-and-restore (the ledger is not among
the persisted records), so a scan of the same entry, skipped before the
restart, appends an event again after it. -/
theorem c6_counterexample :
    ("h1", "l1") ∈ c6state.processed_articles ∧
    ("h1", "l1") ∉ (startupLoad (saveAll c6state)).processed_articles ∧
    (scanEntries c6oracles 0 "f" [⟨"h1", "l1"⟩]
      c6state.processed_articles).1 = [] ∧
    (scanEntries c6oracles 0 "f" [⟨"h1", "l1"⟩]
      (startupLoad (saveAll c6state)).processed_articles).1 ≠ [] := by
  exact ⟨by decide, by decide, by decide, by decide⟩

/-- C6 (amended): the persisted state consists of the Event Store, the
Sent Ledger and the last-wake-up instant only; the Dedup Ledger
(`processed_articles`) is not saved, and every startup begins with an
empty Dedup Ledger, so a restart replays article-identity history. -/
theorem c6_restart_empty_dedup (s : BotState) (disk : DiskState) :
    (startupLoad disk).processed_articles = [] ∧
    (startupLoad (saveAll s)).sent_headlines = s.sent_headlines ∧
    (startupLoad (saveAll s)).last_wake_up_time = s.last_wake_up_time :=
  ⟨rfl, rfl, rfl⟩

/-! ## C7: retention sweep -/

theorem dropWhile_timestamp_bound (cutoff : Int) (l : List NewsEvent)
    (h : l.Pairwise fun a b => a.timestamp ≤ b.timestamp) :
    ∀ e ∈ l.dropWhile (fun e => decide (e.timestamp < cutoff)),
      cutoff ≤ e.timestamp := by
  induction l with
  | nil => intro e he; simp [List.dropWhile] at he
  | cons x xs ih =>
    rw [List.pairwise_cons] at h
    obtain ⟨hx, hxs⟩ := h
    intro e he
    rw [List.dropWhile_cons] at he
    by_cases hp : x.timestamp < cutoff
    · rw [if_pos (by simpa using hp)] at he
      exact ih hxs e he
    · rw [if_neg (by simpa using hp)] at he
      rcases List.mem_cons.mp he with rfl | he2
      · exact le_of_not_lt hp
      · exact le_trans (le_of_not_lt hp) (hx e he2)

/-- C7: after `cleanup_old_events`, either the sweep was skipped (sleep
predicate true or local hour before 7) and the store is unchanged, or
every retained event's timestamp is at least
`now - EVENT_RETENTION_MINUTES` (for a chronologically ordered store,
which appends guarantee). -/
theorem c7_cleanup_retention (now : PyDateTime) (events : List NewsEvent)
    (hchron : events.Pairwise fun a b => a.timestamp ≤ b.timestamp) :
    ((is_sleep_time now || decide (now.hour < 7)) = true →
      cleanup_old_events now events = events) ∧
    ((is_sleep_time now || decide (now.hour < 7)) = false →
      ∀ e ∈ cleanup_old_events now events,
        now.absMinutes - EVENT_RETENTION_MINUTES ≤ e.timestamp) := by
  constructor
  · intro h
    unfold cleanup_old_events
    rw [if_pos h]
  · intro h
    have h' : ¬((is_sleep_time now || decide (now.hour < 7)) = true) := by
      rw [h]; exact Bool.false_ne_true
    unfold cleanup_old_events
    rw [if_neg h']
    exact dropWhile_timestamp_bound _ events hchron

/-- Sample store for C7's witness: one stale and one fresh event at a
mid-morning weekday instant. -/
def c7now : PyDateTime := ⟨100, 10, 0, 1, 0⟩

def c7evOld : NewsEvent :=
  ⟨"old", "AAA", "c", [], "BULLISH", mkRat 1 2, 90, "u1", "f"⟩

def c7evNew : NewsEvent :=
  ⟨"new", "BBB", "c", [], "BEARISH", mkRat 1 2, 99, "u2", "f"⟩

/-- C7 witness: the retention bound at a concrete store and instant. -/
theorem c7_cleanup_retention_witness :
    c7now.absMinutes - EVENT_RETENTION_MINUTES ≤ c7evNew.timestamp :=
  (c7_cleanup_retention c7now [c7evOld, c7evNew] (by decide)).2
    (by decide) c7evNew (by decide)

/-! ## C8: classifier post-processing contract -/

/-- The sentiment field shape under which `.upper()` cannot raise:
absent, or a string. -/
def sentimentFieldOk : Option JValue → Bool
  | some (.jstr _) => true
  | none => true
  | some _ => false

/-- The confidence field shape under which `float()` cannot raise an
uncaught TypeError: absent, number, bool, or string. -/
def confidenceFieldOk : Option JValue → Bool
  | some (.jnum _) => true
  | some (.jbool _) => true
  | some (.jstr _) => true
  | none => true
  | some _ => false

/-- Responses on which `analyze_news_with_chatgpt` cannot raise. -/
def goodShape : Option (Except Unit (List (String × JValue))) → Bool
  | some (.ok fields) =>
    sentimentFieldOk (fields.lookup "sentiment") &&
    confidenceFieldOk (fields.lookup "confidence_score")
  | _ => true

/-- Whether the response carries an explicitly empty reasons array. -/
def reasonsExplicitEmpty :
    Option (Except Unit (List (String × JValue))) → Bool
  | some (.ok fields) =>
    match fields.lookup "importance_reasons" with
    | some (.jarr []) => true
    | _ => false
  | _ => false

def isOkA : Except PyError GptAnalysis → Bool
  | .ok _ => true
  | .error _ => false

def okSentiment : Except PyError GptAnalysis → String
  | .ok a => a.sentiment
  | .error _ => ""

def okConfidence : Except PyError GptAnalysis → Rat
  | .ok a => a.confidence_score
  | .error _ => 0

def okReasons : Except PyError GptAnalysis → List JValue
  | .ok a => a.importance_reasons
  | .error _ => []

/-- C8 (counterexample): a classifier reply `{"sentiment": 5}` makes
`analyze_news_with_chatgpt` raise (AttributeError escapes its `except`
clause), and a reply carrying an explicitly empty
`importance_reasons` array is returned with an empty reasons list —
so neither "returns without raising for every response" nor
"non-empty reasons list" holds as stated. -/
theorem c8_counterexample :
    analyze_news_with_chatgpt (some (.ok [("sentiment", .jnum 5)]))
      = .error .attributeError ∧
    analyze_news_with_chatgpt (some (.ok
        [("sentiment", .jstr "BULLISH"), ("importance_reasons", .jarr [])]))
      = .ok ⟨"BULLISH", 0, []⟩ := by
  exact ⟨rfl, rfl⟩

theorem sentimentFieldOk_str (o : Option JValue)
    (h : sentimentFieldOk o = true) :
    ∃ s, o.getD (.jstr "NEUTRAL") = .jstr s := by
  match o with
  | none => exact ⟨"NEUTRAL", rfl⟩
  | some (.jstr s) => exact ⟨s, rfl⟩
  | some .jnull => exact absurd h (by simp [sentimentFieldOk])
  | some (.jbool b) => exact absurd h (by simp [sentimentFieldOk])
  | some (.jnum q) => exact absurd h (by simp [sentimentFieldOk])
  | some (.jarr xs) => exact absurd h (by simp [sentimentFieldOk])
  | some (.jobj fs) => exact absurd h (by simp [sentimentFieldOk])

theorem confidenceFieldOk_no_typeError (o : Option JValue)
    (h : confidenceFieldOk o = true) :
    pyFloat (o.getD (.jnum 0)) ≠ FloatResult.typeError := by
  match o with
  | none => intro hx; exact FloatResult.noConfusion hx
  | some (.jnum q) => intro hx; exact FloatResult.noConfusion hx
  | some (.jbool b) => intro hx; exact FloatResult.noConfusion hx
  | some (.jstr s) =>
    intro hx
    have hx2 : (match pyFloatOfString s with
        | some q => FloatResult.ok q
        | none => FloatResult.valueError) = FloatResult.typeError := hx
    cases hp : pyFloatOfString s <;> rw [hp] at hx2 <;>
      exact FloatResult.noConfusion hx2
  | some .jnull => exact absurd h (by simp [confidenceFieldOk])
  | some (.jarr xs) => exact absurd h (by simp [confidenceFieldOk])
  | some (.jobj fs) => exact absurd h (by simp [confidenceFieldOk])

theorem analyze_ok_eq (fields : List (String × JValue)) (s : String)
    (hs : jGetD fields "sentiment" (.jstr "NEUTRAL") = .jstr s) (c : Rat)
    (hc : pyFloat (jGetD fields "confidence_score" (.jnum 0)) = .ok c) :
    analyze_news_with_chatgpt (some (.ok fields)) = .ok
      ⟨if pyToUpper s = "BULLISH" ∨ pyToUpper s = "BEARISH" ∨
          pyToUpper s = "NEUTRAL" then pyToUpper s else "NEUTRAL",
        max 0 (min 1 c),
        match jGetD fields "importance_reasons"
            (.jarr [.jstr "Unable to analyze"]) with
        | .jarr xs => xs
        | other => [.jstr (pyStr other)]⟩ := by
  show ((match pyUpperJ (jGetD fields "sentiment" (.jstr "NEUTRAL")) with
    | .error e => .error e
    | .ok sRaw =>
      let sentiment :=
        if sRaw = "BULLISH" ∨ sRaw = "BEARISH" ∨ sRaw = "NEUTRAL" then sRaw
        else "NEUTRAL"
      match pyFloat (jGetD fields "confidence_score" (.jnum 0)) with
      | .typeError => .error PyError.typeError
      | .valueError => .ok fallbackAnalysisFailed
      | .ok c =>
        let confidence := max 0 (min 1 c)
        let reasons :=
          match jGetD fields "importance_reasons"
              (.jarr [.jstr "Unable to analyze"]) with
          | .jarr xs => xs
          | other => [.jstr (pyStr other)]
        .ok ⟨sentiment, confidence, reasons⟩) :
      Except PyError GptAnalysis) = _
  rw [hs]
  simp only [pyUpperJ]
  rw [hc]

theorem analyze_valueError_eq (fields : List (String × JValue)) (s : String)
    (hs : jGetD fields "sentiment" (.jstr "NEUTRAL") = .jstr s)
    (hc : pyFloat (jGetD fields "confidence_score" (.jnum 0))
      = .valueError) :
    analyze_news_with_chatgpt (some (.ok fields))
      = .ok fallbackAnalysisFailed := by
  show ((match pyUpperJ (jGetD fields "sentiment" (.jstr "NEUTRAL")) with
    | .error e => .error e
    | .ok sRaw =>
      let sentiment :=
        if sRaw = "BULLISH" ∨ sRaw = "BEARISH" ∨ sRaw = "NEUTRAL" then sRaw
        else "NEUTRAL"
      match pyFloat (jGetD fields "confidence_score" (.jnum 0)) with
      | .typeError => .error PyError.typeError
      | .valueError => .ok fallbackAnalysisFailed
      | .ok c =>
        let confidence := max 0 (min 1 c)
        let reasons :=
          match jGetD fields "importance_reasons"
              (.jarr [.jstr "Unable to analyze"]) with
          | .jarr xs => xs
          | other => [.jstr (pyStr other)]
        .ok ⟨sentiment, confidence, reasons⟩) :
      Except PyError GptAnalysis) = _
  rw [hs]
  simp only [pyUpperJ]
  rw [hc]

theorem reasons_nonempty_or_explicit (fields : List (String × JValue)) :
    (match jGetD fields "importance_reasons"
        (.jarr [.jstr "Unable to analyze"]) with
     | .jarr xs => xs
     | other => [.jstr (pyStr other)]) = [] →
    reasonsExplicitEmpty (some (.ok fields)) = true := by
  intro hx
  unfold jGetD at hx
  show (match fields.lookup "importance_reasons" with
    | some (.jarr []) => true
    | _ => false) = true
  cases hr : fields.lookup "importance_reasons" with
  | none =>
    rw [hr] at hx
    exact absurd hx (by simp)
  | some v =>
    rw [hr] at hx
    match v with
    | .jarr xs =>
      have hxs : xs = [] := hx
      subst hxs
      rfl
    | .jnull => exact absurd hx (by simp)
    | .jbool b => exact absurd hx (by simp)
    | .jnum q => exact absurd hx (by simp)
    | .jstr s2 => exact absurd hx (by simp)
    | .jobj fs => exact absurd hx (by simp)

/-- C8 (amended): `analyze_news_with_chatgpt` returns without raising
whenever the reply is absent, unparseable, or a JSON object whose
sentiment field (if present) is a string and whose confidence field (if
present) is a number, bool or string; the result then has sentiment in
exactly BULLISH/BEARISH/NEUTRAL (anything unrecognized mapped to
NEUTRAL), confidence clamped into [0,1], and a non-empty reasons list
unless the source supplies an explicitly empty array, which is passed
through empty. -/
theorem c8_analyze_contract_amended
    (response : Option (Except Unit (List (String × JValue))))
    (h : goodShape response = true) :
    isOkA (analyze_news_with_chatgpt response) = true ∧
    (okSentiment (analyze_news_with_chatgpt response) = "BULLISH" ∨
     okSentiment (analyze_news_with_chatgpt response) = "BEARISH" ∨
     okSentiment (analyze_news_with_chatgpt response) = "NEUTRAL") ∧
    0 ≤ okConfidence (analyze_news_with_chatgpt response) ∧
    okConfidence (analyze_news_with_chatgpt response) ≤ 1 ∧
    (okReasons (analyze_news_with_chatgpt response) = [] →
      reasonsExplicitEmpty response = true) := by
  match response with
  | none =>
    refine ⟨rfl, Or.inr (Or.inr rfl), le_refl 0,
      (by norm_num : (0:Rat) ≤ 1), fun hx => ?_⟩
    exact absurd hx (by simp [analyze_news_with_chatgpt, okReasons,
      fallbackNoResponse])
  | some (.error u) =>
    refine ⟨rfl, Or.inr (Or.inr rfl), le_refl 0,
      (by norm_num : (0:Rat) ≤ 1), fun hx => ?_⟩
    exact absurd hx (by simp [analyze_news_with_chatgpt, okReasons,
      fallbackAnalysisFailed])
  | some (.ok fields) =>
    simp only [goodShape, Bool.and_eq_true] at h
    obtain ⟨hsOk, hcOk⟩ := h
    obtain ⟨s, hs0⟩ := sentimentFieldOk_str _ hsOk
    have hs : jGetD fields "sentiment" (.jstr "NEUTRAL") = .jstr s := hs0
    cases hfc : pyFloat (jGetD fields "confidence_score" (.jnum 0)) with
    | typeError => exact absurd hfc (confidenceFieldOk_no_typeError _ hcOk)
    | valueError =>
      rw [analyze_valueError_eq fields s hs hfc]
      refine ⟨rfl, Or.inr (Or.inr rfl), le_refl 0,
        (by norm_num : (0:Rat) ≤ 1), fun hx => ?_⟩
      exact absurd hx (by simp [okReasons, fallbackAnalysisFailed])
    | ok c =>
      rw [analyze_ok_eq fields s hs c hfc]
      refine ⟨rfl, ?_, le_max_left 0 _,
        max_le (by norm_num) (min_le_left 1 c), ?_⟩
      · dsimp only [okSentiment]
        by_cases hb : pyToUpper s = "BULLISH" ∨ pyToUpper s = "BEARISH" ∨
          pyToUpper s = "NEUTRAL"
        · rw [if_pos hb]; exact hb
        · rw [if_neg hb]; exact Or.inr (Or.inr rfl)
      · dsimp only [okReasons]
        exact reasons_nonempty_or_explicit fields

/-- A concrete well-shaped classifier reply for C8's witness: lowercase
sentiment, out-of-range confidence, a one-element reasons array. -/
def c8resp : Option (Except Unit (List (String × JValue))) :=
  some (.ok [("sentiment", .jstr "bullish"),
    ("confidence_score", .jnum (mkRat 2 1)),
    ("importance_reasons", .jarr [.jstr "r"])])

/-- C8 witness: the amended contract at a concrete reply. -/
theorem c8_analyze_contract_amended_witness :
    goodShape c8resp = true ∧
    isOkA (analyze_news_with_chatgpt c8resp) = true ∧
    0 ≤ okConfidence (analyze_news_with_chatgpt c8resp) :=
  ⟨by decide, (c8_analyze_contract_amended c8resp (by decide)).1,
   (c8_analyze_contract_amended c8resp (by decide)).2.2.1⟩

/-! ## C9: negative caching of ticker-validation failures -/

/-- C9: if the first `validate_ticker` call for a non-empty, uncached
symbol sees the external lookup raise, `False` is stored in the cache
and returned; every later call for that symbol returns the cached
`False` with the cache unchanged, whatever a fresh lookup would have
returned — no new lookup can influence the result. -/
theorem c9_validate_cache_negative (ticker : String)
    (cache : List (String × Bool)) (hne : ticker ≠ "")
    (hmiss : cache.lookup ticker = none) :
    validate_ticker (.error ()) cache ticker
      = (false, (ticker, false) :: cache) ∧
    ∀ lookup2 : Except Unit YfInfo,
      validate_ticker lookup2 ((ticker, false) :: cache) ticker
        = (false, (ticker, false) :: cache) := by
  constructor
  · unfold validate_ticker
    rw [if_neg hne, hmiss]
  · intro lookup2
    unfold validate_ticker
    rw [if_neg hne]
    have hhit : ((ticker, false) :: cache).lookup ticker = some false := by
      simp [List.lookup]
    rw [hhit]

/-- C9 witness: a lookup failure for TSLA is cached as invalid; a later
call with a lookup that would have succeeded still returns the cached
`False` and performs no update. -/
theorem c9_validate_cache_negative_witness :
    validate_ticker (.error ()) [] "TSLA" = (false, [("TSLA", false)]) ∧
    validate_ticker
        (.ok ⟨some "EQUITY", none, some "TSLA", some "Tesla", none⟩)
        [("TSLA", false)] "TSLA" = (false, [("TSLA", false)]) :=
  ⟨(c9_validate_cache_negative "TSLA" [] (by decide) (by decide)).1,
   (c9_validate_cache_negative "TSLA" [] (by decide) (by decide)).2 _⟩

/-! ## C10: dedup-set updates during scanning -/

/-- Per-feed invariant of the scan loop: the dedup set afterwards is the
dedup set before plus exactly the identities of the appended events,
and every appended event's identity was fresh. -/
theorem scanEntries_spec (o : ScanOracles) (now : Int) (feedUrl : String)
    (entries : List FeedEntry) (processed : List (String × String)) :
    (∀ k, k ∈ (scanEntries o now feedUrl entries processed).2 ↔
      (k ∈ processed ∨ ∃ e ∈ (scanEntries o now feedUrl entries processed).1,
        (e.headline, e.source_url) = k)) ∧
    (∀ e ∈ (scanEntries o now feedUrl entries processed).1,
      (e.headline, e.source_url) ∉ processed) := by
  induction entries generalizing processed with
  | nil =>
    constructor
    · intro k
      simp [scanEntries]
    · intro e he
      simp [scanEntries] at he
  | cons entry rest ih =>
    unfold scanEntries
    dsimp only
    split
    next h1 => exact ih processed
    next h1 =>
      split
      next h2 => exact ih processed
      next h2 =>
        split
        next => exact ih processed
        next ticker hticker =>
          split
          next h3 => exact ih processed
          next h3 =>
            split
            next herr =>
              constructor
              · intro k
                simp
              · intro e he
                simp at he
            next a hana =>
              obtain ⟨ih1, ih2⟩ :=
                ih ((clean_text entry.title, entry.link) :: processed)
              constructor
              · intro k
                rw [ih1 k]
                constructor
                · rintro (hk | ⟨e, he, hke⟩)
                  · rcases List.mem_cons.mp hk with rfl | hk2
                    · exact Or.inr ⟨_, List.mem_cons_self _ _, rfl⟩
                    · exact Or.inl hk2
                  · exact Or.inr ⟨e, List.mem_cons_of_mem _ he, hke⟩
                · rintro (hk | ⟨e, he, hke⟩)
                  · exact Or.inl (List.mem_cons_of_mem _ hk)
                  · rcases List.mem_cons.mp he with rfl | he2
                    · exact Or.inl (by rw [← hke]; exact List.mem_cons_self _ _)
                    · exact Or.inr ⟨e, he2, hke⟩
              · intro e he
                rcases List.mem_cons.mp he with rfl | he2
                · exact h2
                · intro hmem
                  exact ih2 e he2 (List.mem_cons_of_mem _ hmem)

/-- The per-feed invariant lifted over all feeds. -/
theorem scan_news_feeds_spec (o : ScanOracles) (now : Int)
    (feeds : List (String × List FeedEntry))
    (processed : List (String × String)) :
    (∀ k, k ∈ (scan_news_feeds o now feeds processed).2 ↔
      (k ∈ processed ∨
        ∃ e ∈ (scan_news_feeds o now feeds processed).1,
          (e.headline, e.source_url) = k)) ∧
    (∀ e ∈ (scan_news_feeds o now feeds processed).1,
      (e.headline, e.source_url) ∉ processed) := by
  induction feeds generalizing processed with
  | nil =>
    constructor
    · intro k
      simp [scan_news_feeds]
    · intro e he
      simp [scan_news_feeds] at he
  | cons feed rest ih =>
    obtain ⟨url, entries⟩ := feed
    unfold scan_news_feeds
    dsimp only
    obtain ⟨s1, s2⟩ :=
      scanEntries_spec o now url (entries.take MAX_EVENTS_PER_SCAN) processed
    obtain ⟨r1, r2⟩ :=
      ih ((scanEntries o now url (entries.take MAX_EVENTS_PER_SCAN)
        processed).2)
    constructor
    · intro k
      rw [r1 k, s1 k]
      constructor
      · rintro ((hk | ⟨e, he, hke⟩) | ⟨e, he, hke⟩)
        · exact Or.inl hk
        · exact Or.inr ⟨e, List.mem_append.mpr (Or.inl he), hke⟩
        · exact Or.inr ⟨e, List.mem_append.mpr (Or.inr he), hke⟩
      · rintro (hk | ⟨e, he, hke⟩)
        · exact Or.inl (Or.inl hk)
        · rcases List.mem_append.mp he with hm | hm
          · exact Or.inl (Or.inr ⟨e, hm, hke⟩)
          · exact Or.inr ⟨e, hm, hke⟩
    · intro e he hmem
      rcases List.mem_append.mp he with hm | hm
      · exact s2 e hm hmem
      · exact r2 e hm ((s1 _).mpr (Or.inl hmem))

/-- Processing one eligible entry: the event is appended and the
identity added, with the article content falling back to the headline
when the fetch failed and the classification stored exactly as the
analyzer returned it. -/
theorem scanEntries_single_eligible (o : ScanOracles) (now : Int)
    (feedUrl : String) (entry : FeedEntry)
    (processed : List (String × String)) (t : String) (a : EventAnalysis)
    (h1 : clean_text entry.title ≠ "") (h2 : entry.link ≠ "")
    (h3 : (clean_text entry.title, entry.link) ∉ processed)
    (h4 : o.extractTicker (clean_text entry.title) = some t)
    (h5 : o.validate t = true)
    (h6 : o.analyze (clean_text entry.title) t
      ((o.fetchContent entry.link).getD (clean_text entry.title)) = .ok a) :
    scanEntries o now feedUrl [entry] processed
      = ([{ headline := clean_text entry.title, ticker := t
            article_content :=
              (o.fetchContent entry.link).getD (clean_text entry.title)
            importance_reasons := a.importance_reasons
            sentiment := a.sentiment
            confidence_score := a.confidence_score
            timestamp := now, source_url := entry.link
            source_feed := feedUrl }],
        (clean_text entry.title, entry.link) :: processed) := by
  unfold scanEntries
  dsimp only
  rw [if_neg (not_or_intro h1 h2), if_neg h3, h4]
  dsimp only
  rw [h5]
  simp only [Bool.not_true]
  rw [if_neg Bool.false_ne_true, h6]
  rfl

/-- C10: over any oracles (including a failing article fetch and a
classifier falling back to NEUTRAL / 0.0), `scan_news_feeds` adds an
article identity to the dedup set exactly when it appends an event for
that article, every appended event's identity was fresh, and an
eligible entry whose classification came back `a` is stored verbatim
(content falling back to the headline when the fetch failed) while its
identity is recorded — so it will never be re-analyzed in the same run. -/
theorem c10_scan_dedup_exact (o : ScanOracles) (now : Int)
    (feeds : List (String × List FeedEntry))
    (processed : List (String × String)) (feedUrl : String)
    (entry : FeedEntry) (t : String) (a : EventAnalysis)
    (h1 : clean_text entry.title ≠ "") (h2 : entry.link ≠ "")
    (h3 : (clean_text entry.title, entry.link) ∉ processed)
    (h4 : o.extractTicker (clean_text entry.title) = some t)
    (h5 : o.validate t = true)
    (h6 : o.analyze (clean_text entry.title) t
      ((o.fetchContent entry.link).getD (clean_text entry.title)) = .ok a) :
    (∀ k, k ∈ (scan_news_feeds o now feeds processed).2 ↔
      (k ∈ processed ∨
        ∃ e ∈ (scan_news_feeds o now feeds processed).1,
          (e.headline, e.source_url) = k)) ∧
    (∀ e ∈ (scan_news_feeds o now feeds processed).1,
      (e.headline, e.source_url) ∉ processed) ∧
    scanEntries o now feedUrl [entry] processed
      = ([{ headline := clean_text entry.title, ticker := t
            article_content :=
              (o.fetchContent entry.link).getD (clean_text entry.title)
            importance_reasons := a.importance_reasons
            sentiment := a.sentiment
            confidence_score := a.confidence_score
            timestamp := now, source_url := entry.link
            source_feed := feedUrl }],
        (clean_text entry.title, entry.link) :: processed) :=
  ⟨(scan_news_feeds_spec o now feeds processed).1,
   (scan_news_feeds_spec o now feeds processed).2,
   scanEntries_single_eligible o now feedUrl entry processed t a
     h1 h2 h3 h4 h5 h6⟩

/-- Oracles for C10's witness: article fetch fails (headline-only
fallback) and the classifier returns its zero-information fallback. -/
def c10oracles : ScanOracles :=
  ⟨fun _ => some "TSLA", fun _ => true, fun _ => none,
    fun _ _ _ => .ok ⟨"NEUTRAL", 0, ["Analysis failed"]⟩⟩

def c10entry : FeedEntry := ⟨"Tesla surges", "l1"⟩

/-- C10 witness: during a classifier outage and a failed fetch, the
entry is stored with content = headline, sentiment NEUTRAL, confidence
0, and its identity enters the dedup set. -/
theorem c10_scan_dedup_exact_witness :
    scanEntries c10oracles 5 "f" [c10entry] []
      = ([{ headline := clean_text c10entry.title, ticker := "TSLA"
            article_content := (c10oracles.fetchContent
              c10entry.link).getD (clean_text c10entry.title)
            importance_reasons := ["Analysis failed"]
            sentiment := "NEUTRAL", confidence_score := 0
            timestamp := 5, source_url := "l1", source_feed := "f" }],
        [(clean_text c10entry.title, c10entry.link)]) :=
  (c10_scan_dedup_exact c10oracles 5 [] [] "f" c10entry "TSLA"
    ⟨"NEUTRAL", 0, ["Analysis failed"]⟩ (by decide) (by decide)
    (by decide) rfl rfl rfl).2.2
